import Mathlib

/-
Verification of the batch HTTP request runner found in src/test183.py and
src/251110_확인해.py. Pure shallow embedding: network behavior is an
environment mapping each attempt index to the event the attempt observes,
and the stateful batching loop is explicit state passing.
-/

namespace BatchRunner

/-- JSON-like values, standing for the Python objects that appear as request
bodies and parsed response bodies. -/
inductive Json where
  | null
  | bool (b : Bool)
  | num (q : ℚ)
  | str (s : String)
  | arr (elems : List Json)
  | obj (fields : List (String × Json))
/-- The payload stored by request_with_retry on a 2xx response: resp.json()
when the body parses as JSON, otherwise the raw resp.text string. -/
inductive ApiBody where
  | jsonVal (j : Json)
  | rawText (t : String)
/-- One HTTP response as request_with_retry sees it: resp.status_code, the
outcome of calling resp.json() (none when parsing raises), and resp.text. -/
structure Resp where
  status_code : Nat
  jsonParse : Option Json
  text : String
/-- What one awaited client.post call can do: return a response after a
measured latency, raise httpx.ReadTimeout, raise httpx.ConnectTimeout (a
sibling of ReadTimeout, NOT caught by the ReadTimeout handler), or raise any
other exception whose repr is msg. -/
inductive AttemptEvent where
  | ok (resp : Resp) (latency : ℚ)
  | readTimeout
  | connectTimeout (msg : String)
  | exn (msg : String)
/-- The 5-tuple returned by request_with_retry (src/test183.py:295):
(ok, response_json_or_none, status_code_or_none, error_message_or_none,
latency_seconds_or_none). -/
structure RetryResult where
  ok : Bool
  body : Option ApiBody
  status : Option Nat
  errMsg : Option String
  latency : Option ℚ
/-- The success-status test of src/test183.py:306 (200 <= status < 300). -/
def is2xx (s : Nat) : Bool := decide (200 ≤ s) && decide (s < 300)
/-- The tuple returned when an attempt terminates the loop: one of the return
statements inside the loop body of request_with_retry
(src/test183.py:308,310,316,321,326). A connect timeout is handled by the
generic `except Exception` arm, like any other non-ReadTimeout exception. -/
def classifyTerminal : AttemptEvent → RetryResult
  | .ok resp latency =>
    if is2xx resp.status_code then
      { ok := true
        body := some (match resp.jsonParse with
          | some j => ApiBody.jsonVal j
          | none => ApiBody.rawText resp.text)
        status := some resp.status_code
        errMsg := none
        latency := some latency }
    else
      { ok := false, body := none, status := some resp.status_code
        errMsg := some ("HTTP " ++ toString resp.status_code ++ ": " ++ resp.text)
        latency := none }
  | .readTimeout =>
      { ok := false, body := none, status := none
        errMsg := some "timeout", latency := none }
  | .connectTimeout m =>
      { ok := false, body := none, status := none
        errMsg := some ("exception: " ++ m), latency := none }
  | .exn m =>
      { ok := false, body := none, status := none
        errMsg := some ("exception: " ++ m), latency := none }
/-- Whether an attempt event is retryable, i.e. takes the
sleep-and-continue path when attempt < RETRIES: a non-2xx response, a read
timeout, or any raised exception. A 2xx response returns immediately. -/
def isRetryable : AttemptEvent → Bool
  | .ok resp _ => !is2xx resp.status_code
  | .readTimeout => true
  | .connectTimeout _ => true
  | .exn _ => true
/-- The body of the `for attempt in range(RETRIES + 1)` loop of
request_with_retry (src/test183.py:300-326), iterated with explicit fuel
(the number of remaining loop iterations) and the current attempt index a.
Returns none if the loop exhausts without returning, together with the list
of backoff sleeps performed, in order. On a retryable event with a < R the
code sleeps BACKOFF_BASE * 2 ** attempt and continues; otherwise it returns
the classification of the current event. -/
def rwrGo (env : Nat → AttemptEvent) (B : ℚ) (R : Nat) :
    Nat → Nat → Option RetryResult × List ℚ
  | _, 0 => (none, [])
  | a, fuel + 1 =>
    if isRetryable (env a) && decide (a < R) then
      let next := rwrGo env B R (a + 1) fuel
      (next.1, B * 2 ^ a :: next.2)
    else
      (some (classifyTerminal (env a)), [])
/-- The fallback tuple after the loop of request_with_retry
(src/test183.py:328): (False, None, None, "unknown", None). -/
def unknownFallback : RetryResult :=
  { ok := false, body := none, status := none
    errMsg := some "unknown", latency := none }
/-- Shallow embedding of request_with_retry (src/test183.py:290-328, and the
identical src/251110_확인해.py:147-191): run the attempt loop starting at
attempt 0 with R + 1 iterations available, falling back to the "unknown"
tuple if the loop were ever to exhaust. Also returns the performed backoff
sleeps in order. -/
def request_with_retry (env : Nat → AttemptEvent) (B : ℚ) (R : Nat) :
    RetryResult × List ℚ :=
  let r := rwrGo env B R 0 (R + 1)
  (r.1.getD unknownFallback, r.2)
/-- RETRIES = 2 (src/test183.py:25). -/
def RETRIES : Nat := 2
/-- BACKOFF_BASE = 0.8 seconds (src/test183.py:26). -/
def BACKOFF_BASE : ℚ := 8 / 10
/-- FLUSH_EVERY = 200 (src/test183.py:395, src/251110_확인해.py:259). -/
def FLUSH_EVERY : Nat := 200
/-- CONCURRENCY = 10 (src/test183.py:23): the semaphore capacity; it bounds
in-flight requests and does not affect any value computed here. -/
def CONCURRENCY : Nat := 10
/-- One input row of src/test183.py with its five required columns
(src/test183.py:229). The 질문 (question) cell may be missing or NaN,
modelled as none; the other cells are taken through str(). -/
structure Row where
  filename : String
  docBody : String
  question : Option String
  answer : String
  refText : String
/-- str() applied to the question cell: the string itself, or "nan" for a
missing/NaN cell (str of float nan). -/
def questionStr : Option String → String
  | some s => s
  | none => "nan"
/-- Python str.strip(): drop whitespace from both ends. -/
def pyStrip (s : String) : String :=
  String.mk (((s.toList.dropWhile Char.isWhitespace).reverse.dropWhile
    Char.isWhitespace).reverse)
/-- The skip test of process_one_row (src/test183.py:341):
pd.isna(question) or str(question).strip() == "". -/
def isBlankQuery : Option String → Bool
  | some s => pyStrip s == ""
  | none => true
/-- Python round(x, 4): scale by 10^4 and round half to even. -/
def pyRound4 (x : ℚ) : ℚ :=
  let y := x * 10000
  let f : ℤ := ⌊y⌋
  let r : ℚ := y - f
  let n : ℤ :=
    if r < 1 / 2 then f
    else if 1 / 2 < r then f + 1
    else if f % 2 = 0 then f else f + 1
  (n : ℚ) / 10000
/-- The success JSONL record built by success_record (src/test183.py:262-271):
the five echoed columns plus results and the rounded latency. -/
structure SuccessRec where
  filename : String
  docBody : String
  question : String
  answer : String
  refText : String
  results : Option ApiBody
  latency : Option ℚ
/-- success_record (src/test183.py:262-271). The api_json argument receives
the resp_json slot of the request_with_retry tuple. -/
def success_record (row : Row) (apiJson : Option ApiBody) (latency : Option ℚ) :
    SuccessRec :=
  { filename := row.filename
    docBody := row.docBody
    question := questionStr row.question
    answer := row.answer
    refText := row.refText
    results := apiJson
    latency := latency.map pyRound4 }
/-- The error JSONL record built by error_record (src/test183.py:274-287):
the five echoed columns plus the error object fields type/status/message.
The callers always pass a row that has all five columns, so the
row-is-None/column-missing fallbacks of error_record are not exercised. -/
structure ErrorRec where
  filename : String
  docBody : String
  question : String
  answer : String
  refText : String
  errType : String
  status : Option Nat
  message : String
/-- error_record (src/test183.py:274-287) for a present row. -/
def error_record (row : Row) (errType : String) (message : String)
    (status : Option Nat) : ErrorRec :=
  { filename := row.filename
    docBody := row.docBody
    question := questionStr row.question
    answer := row.answer
    refText := row.refText
    errType := errType
    status := status
    message := message }
/-- Python truthiness of an Optional[int]: None and 0 are falsy. Used by
the expression `"http_status" if status else ...` (src/test183.py:356). -/
def pyTruthyNat : Option Nat → Bool
  | none => false
  | some n => n != 0
/-- Shallow embedding of process_one_row (src/test183.py:332-359): a
blank/missing question row returns (None, None); otherwise the request runs
through request_with_retry (the semaphore only sequences it) and exactly one
of the two slots is filled. The error type is "http_status" when the status
slot is truthy, else "timeout" when the message equals "timeout", else
"exception"; the message slot falls back to "" when None. -/
def process_one_row (env : Nat → AttemptEvent) (B : ℚ) (R : Nat) (row : Row) :
    Option SuccessRec × Option ErrorRec :=
  if isBlankQuery row.question then (none, none)
  else
    let res := (request_with_retry env B R).1
    if res.ok then
      (some (success_record row res.body res.latency), none)
    else
      (none, some (error_record row
        (if pyTruthyNat res.status then "http_status"
         else if res.errMsg == some "timeout" then "timeout" else "exception")
        (res.errMsg.getD "")
        res.status))
/-- The per-file accumulation state of process_case
(src/test183.py:391-416): the two in-memory batches plus, as the
observable history, the list of batches appended to each output file by
to_jsonl, in order. -/
structure SinkState (σ ε : Type) where
  successBatch : List σ
  errorBatch : List ε
  successWrites : List (List σ)
  errorWrites : List (List ε)
/-- The two conditional appends at the top of the result loop
(src/test183.py:399-402). success_record and error_record always return
non-empty dicts, so Python truthiness of the slot is isSome. -/
def appendOutcome (st : SinkState σ ε) (r : Option σ × Option ε) : SinkState σ ε :=
  { st with
    successBatch := st.successBatch ++ r.1.toList
    errorBatch := st.errorBatch ++ r.2.toList }
/-- The mid-run flush (src/test183.py:404-410): write each non-empty batch
to its file and clear it. -/
def flushClear (st : SinkState σ ε) : SinkState σ ε :=
  let st1 :=
    if st.successBatch.isEmpty then st
    else { st with successWrites := st.successWrites ++ [st.successBatch]
                   successBatch := [] }
  if st1.errorBatch.isEmpty then st1
  else { st1 with errorWrites := st1.errorWrites ++ [st1.errorBatch]
                  errorBatch := [] }
/-- The final flush after the loop (src/test183.py:413-416): write each
non-empty batch; the source does not clear the lists there. -/
def flushFinal (st : SinkState σ ε) : SinkState σ ε :=
  let st1 :=
    if st.successBatch.isEmpty then st
    else { st with successWrites := st.successWrites ++ [st.successBatch] }
  if st1.errorBatch.isEmpty then st1
  else { st1 with errorWrites := st1.errorWrites ++ [st1.errorBatch] }
/-- One iteration of the result loop at 1-based position idx
(src/test183.py:397-410): append the outcome, then flush both batches when
idx is a multiple of FLUSH_EVERY. -/
def sinkStep (flushEvery : Nat) (st : SinkState σ ε) (idx : Nat)
    (r : Option σ × Option ε) : SinkState σ ε :=
  let st1 := appendOutcome st r
  if idx % flushEvery == 0 then flushClear st1 else st1
/-- The result loop, iterating outcomes with their 1-based enumeration
index, mirroring `for idx, ... in enumerate(..., start=1)`. -/
def sinkFold (flushEvery : Nat) : Nat → SinkState σ ε →
    List (Option σ × Option ε) → SinkState σ ε
  | _, st, [] => st
  | idx, st, r :: rest =>
      sinkFold flushEvery (idx + 1) (sinkStep flushEvery st idx r) rest
/-- The whole Result Sink for one input file (src/test183.py:391-416 and
src/251110_확인해.py:255-280): run the loop from index 1 on empty batches,
then perform the final flush. -/
def runSink (flushEvery : Nat) (results : List (Option σ × Option ε)) :
    SinkState σ ε :=
  flushFinal (sinkFold flushEvery 1 ⟨[], [], [], []⟩ results)
/-- One input row of a file together with the network behavior its request
will observe, attempt by attempt. -/
abbrev RowTask := Row × (Nat → AttemptEvent)
/-- The per-file pipeline of process_case (src/test183.py:378-416,
src/251110_확인해.py:239-280): every row becomes one process_one_row
outcome which the Result Sink consumes. Outcomes are listed here in input
order (the order asyncio.gather returns in src/251110_확인해.py:255);
test183's as_completed consumes a permutation of the same multiset, which
no counted property here depends on. -/
def process_file (B : ℚ) (R flushEvery : Nat) (rows : List RowTask) :
    SinkState SuccessRec ErrorRec :=
  runSink flushEvery (rows.map (fun rt => process_one_row rt.2 B R rt.1))
/-- Python dict assignment d[k] = v on an insertion-ordered mapping:
replaces the value in place when the key is present, else appends the new
pair at the end. -/
def dictSet (d : List (String × Json)) (k : String) (v : Json) :
    List (String × Json) :=
  if d.any (fun kv => kv.1 == k) then
    d.map (fun kv => if kv.1 == k then (k, v) else kv)
  else d ++ [(k, v)]
/-- Shallow embedding of build_body (src/test183.py:255-259,
src/251110_확인해.py:114-118): body = dict(base_body) copies the top-level
mapping, then body["queries"] = [str(question)] writes only the copy. The
callers pass str(question), so the question argument is a string and the
defensive `if question is not None` test of the source is always true. -/
def build_body (base_body : List (String × Json)) (question : String) :
    List (String × Json) :=
  dictSet base_body "queries" (Json.arr [Json.str question])
/-- One (input, output, error) path triple (the CaseIO dataclass,
src/test183.py:236-240). -/
structure CaseTriple where
  input_path : String
  out_path : String
  err_path : String
/-- The file-list part of one case configuration (src/test183.py:34-209). -/
structure CaseConf where
  input_files : List String
  output_files : List String
  err_files : List String
/-- pair_io (src/test183.py:243-252): require the three lists to have equal
lengths (the chained len(ins) == len(outs) == len(errs)), else raise
ValueError; on success zip them positionally. -/
def pair_io (conf : CaseConf) : Except String (List CaseTriple) :=
  if conf.input_files.length == conf.output_files.length
      && conf.output_files.length == conf.err_files.length then
    Except.ok ((conf.input_files.zip (conf.output_files.zip conf.err_files)).map
      (fun p => ⟨p.1, p.2.1, p.2.2⟩))
  else
    Except.error ("input/output/err 파일 개수가 맞지 않습니다: "
      ++ toString conf.input_files.length ++ " != "
      ++ toString conf.output_files.length ++ " != "
      ++ toString conf.err_files.length)
/-- Shallow embedding of process_case (src/test183.py:363-420): pair_io runs
first, before the HTTP client exists and before any row is read, so a
length mismatch propagates as an error with no request issued; otherwise
each triple's input file is processed in order. The inputs function stands
for load_dataframe plus the network behavior of each row. -/
def process_case (B : ℚ) (R flushEvery : Nat) (conf : CaseConf)
    (inputs : String → List RowTask) :
    Except String (List (SinkState SuccessRec ErrorRec)) :=
  match pair_io conf with
  | Except.error e => Except.error e
  | Except.ok triples =>
      Except.ok (triples.map (fun t => process_file B R flushEvery (inputs t.input_path)))
/-- Number of rows a finished process_case run dispatched to the Request
Executor: the non-blank rows of each paired input file, and zero when the
run aborted on a configuration error (the error path precedes all
dispatching). -/
def process_case_requests (conf : CaseConf) (inputs : String → List RowTask) : Nat :=
  match pair_io conf with
  | Except.error _ => 0
  | Except.ok triples =>
      (triples.map (fun t =>
        ((inputs t.input_path).filter
          (fun rt => !isBlankQuery rt.1.question)).length)).sum
/-- The completion schedule of concurrently launched tasks: the indices of
the tasks in the order their network calls finish. Each completion event
carries the task's creation index and its result. -/
def completionEvents (tasks : List α) (order : List Nat) : List (Nat × α) :=
  order.filterMap (fun i => tasks[i]?.map (fun a => (i, a)))
/-- asyncio.gather's collection contract (used at src/251110_확인해.py:255):
each completing task stores its result in the slot of its creation index,
and the slots are read back in creation order, independent of when each
task completed. -/
def gatherCollect (n : Nat) (events : List (Nat × α)) : List (Option α) :=
  (List.range n).map (fun j => (events.find? (fun e => e.1 == j)).map (fun e => e.2))
/-- Input-order collection of concurrently completing tasks, as a function
of the completion schedule. -/
def gather (tasks : List α) (order : List Nat) : List (Option α) :=
  gatherCollect tasks.length (completionEvents tasks order)
/-- Errors of the filesystem layer that matter here. -/
inductive PyErr where
  | fileNotFound
deriving DecidableEq
/-- A flat view of the files the runner appends to: each path's current
list of written lines. -/
abbrev FileSys (α : Type) := String → List α
/-- os.path.dirname for POSIX paths: everything before the final separator,
with trailing separators stripped unless the head is all separators. A path
with no separator has dirname "". -/
def dirname (p : String) : String :=
  let cs := p.toList
  let tailLen := (cs.reverse.takeWhile (fun c => c != '/')).length
  let head := cs.take (cs.length - tailLen)
  let head2 :=
    if head.isEmpty || head.all (fun c => c == '/') then head
    else (head.reverse.dropWhile (fun c => c == '/')).reverse
  String.mk head2
/-- os.makedirs(dir, exist_ok=True) on an idealized filesystem with full
permissions and no file/directory name clashes: any non-empty path is
created or already exists, but os.mkdir("") raises FileNotFoundError and
exist_ok does not suppress it because os.path.isdir("") is false. -/
def makedirsExistOk (dir : String) : Except PyErr Unit :=
  if dir == "" then Except.error PyErr.fileNotFound else Except.ok ()
/-- ensure_dir_for_file (src/test183.py:215-216, src/251110_확인해.py:73-74):
os.makedirs(os.path.dirname(path), exist_ok=True). -/
def ensure_dir_for_file (path : String) : Except PyErr Unit :=
  makedirsExistOk (dirname path)
/-- The new contents of a filesystem after appending lines to one path. -/
def appendLines (fs : FileSys α) (path : String) (newLines : List α) :
    FileSys α :=
  fun p => if p == path then fs p ++ newLines else fs p
/-- to_jsonl (src/test183.py:219-223, src/251110_확인해.py:77-81): ensure the
parent directory, then open the path in append mode and write one
json.dumps line per record. The enc argument stands for the JSON-line
encoding of one record. -/
def to_jsonl (enc : α → β) (fs : FileSys β) (path : String) (records : List α) :
    Except PyErr (FileSys β) :=
  match ensure_dir_for_file path with
  | Except.error e => Except.error e
  | Except.ok _ => Except.ok (appendLines fs path (records.map enc))

/-- Python dict lookup d[k] on an insertion-ordered mapping: the value of
the first pair whose key matches, none when absent. -/
def dictGet (d : List (String × Json)) (k : String) : Option Json :=
  match d with
  | [] => none
  | kv :: rest => if kv.1 == k then some kv.2 else dictGet rest k

/-- A network environment where every attempt gets an immediate 2xx JSON
response. -/
def okEnv : Nat → AttemptEvent :=
  fun _ => AttemptEvent.ok ⟨200, some Json.null, "null"⟩ 1

/-- An HTTP 500 response. -/
def resp500 : Resp := ⟨500, none, "Internal Server Error"⟩

/-- A 2xx response whose body parses as JSON. -/
def respOk : Resp := ⟨200, some (Json.str "ok"), "raw"⟩

/-- The retry scenario of the spec's retry-policy property: HTTP 500 on
attempts 0 and 1, success on attempt 2. -/
def env500 : Nat → AttemptEvent
  | 0 => AttemptEvent.ok resp500 1
  | 1 => AttemptEvent.ok resp500 2
  | _ => AttemptEvent.ok respOk 3

/-- A 2xx response whose body fails to parse as JSON. -/
def respRaw : Resp := ⟨200, none, "not json"⟩

/-- A network environment delivering respRaw on every attempt. -/
def envRaw : Nat → AttemptEvent := fun _ => AttemptEvent.ok respRaw 2

/-- The repr of a connect-timeout exception. -/
def ctMsg : String := "ConnectTimeout(timed out)"

/-- A network environment where every attempt raises httpx.ConnectTimeout. -/
def envCT : Nat → AttemptEvent := fun _ => AttemptEvent.connectTimeout ctMsg

/-- A network environment where every attempt raises httpx.ReadTimeout. -/
def envRT : Nat → AttemptEvent := fun _ => AttemptEvent.readTimeout

/-- A row with a non-blank question. -/
def sampleRow : Row := ⟨"file1", "body1", some "what is x", "ans1", "ref1"⟩

/-- A row whose question cell is whitespace only. -/
def blankRow : Row := ⟨"file2", "body2", some "   ", "ans2", "ref2"⟩

/-- One blank row and one non-blank row, both with an always-succeeding
network. -/
def c1Rows : List RowTask := [(blankRow, okEnv), (sampleRow, okEnv)]

/-- A minimal non-blank row. -/
def c3Row : Row := ⟨"f", "b", some "q", "a", "r"⟩

/-- 450 non-blank rows whose requests all succeed on the first attempt. -/
def c3Rows : List RowTask := List.replicate 450 (c3Row, okEnv)

/-- A case configuration whose three file lists have mismatched lengths. -/
def conf7 : CaseConf := ⟨["in.xlsx"], [], ["errs.jsonl"]⟩

/-- An input loader with no rows anywhere. -/
def inputs0 : String → List RowTask := fun _ => []

/-- A base request body resembling the configured bodys template. -/
def c8Base : List (String × Json) :=
  [("collection_name", Json.str "late_512_251103"), ("final_limit", Json.num 5)]

/-- A filesystem with every numeric-line file empty. -/
def emptyFsNat : FileSys Nat := fun _ => []

/-- A filesystem with every string-line file empty. -/
def emptyFsStr : FileSys String := fun _ => []

theorem rwrGo_spec (env : Nat → AttemptEvent) (B : ℚ) (R : Nat) :
    ∀ fuel a, a + fuel = R + 1 → 1 ≤ fuel →
      (rwrGo env B R a fuel).1
          = some (classifyTerminal (env (a + (rwrGo env B R a fuel).2.length)))
      ∧ (rwrGo env B R a fuel).2
          = (List.range' a (rwrGo env B R a fuel).2.length).map (fun i => B * 2 ^ i)
      ∧ (∀ i, a ≤ i → i < a + (rwrGo env B R a fuel).2.length →
          isRetryable (env i) = true)
      ∧ a + (rwrGo env B R a fuel).2.length ≤ R := by
  intro fuel
  induction fuel with
  | zero => intro a _ h1; omega
  | succ f ih =>
    intro a ha _
    by_cases hc : isRetryable (env a) && decide (a < R)
    · have haR : a < R := by
        have := (Bool.and_eq_true _ _).mp hc
        exact of_decide_eq_true this.2
      have hf : 1 ≤ f := by omega
      have ha' : (a + 1) + f = R + 1 := by omega
      obtain ⟨ih1, ih2, ih3, ih4⟩ := ih (a + 1) ha' hf
      have hstep : rwrGo env B R a (f + 1)
          = ((rwrGo env B R (a + 1) f).1,
             B * 2 ^ a :: (rwrGo env B R (a + 1) f).2) := by
        simp [rwrGo, hc]
      refine ⟨?_, ?_, ?_, ?_⟩
      · rw [hstep]
        simpa [Nat.add_comm, Nat.add_left_comm, Nat.add_assoc] using ih1
      · rw [hstep]
        simp only [List.length_cons]
        rw [List.range'_succ]
        simp only [List.map_cons]
        exact congrArg (B * 2 ^ a :: ·) ih2
      · rw [hstep]
        intro i hai hi
        simp only [List.length_cons] at hi
        rcases Nat.eq_or_lt_of_le hai with h | h
        · have hra : isRetryable (env a) = true := ((Bool.and_eq_true _ _).mp hc).1
          rw [h] at hra
          exact hra
        · exact ih3 i h (by omega)
      · rw [hstep]
        simp only [List.length_cons]
        omega
    · have hstep : rwrGo env B R a (f + 1)
          = (some (classifyTerminal (env a)), []) := by
        simp only [rwrGo]
        rw [if_neg hc]
      refine ⟨?_, ?_, ?_, ?_⟩
      · rw [hstep]; simp
      · rw [hstep]; simp
      · rw [hstep]; intro i h1 h2; simp at h2; omega
      · rw [hstep]
        simp only [List.length_nil, Nat.add_zero]
        by_cases hr : isRetryable (env a)
        · have : ¬ a < R := by
            intro hlt
            exact hc (by simp [hr, hlt])
          omega
        · -- a ≤ R from a + (f + 1) = R + 1
          omega
/-- The attempt loop always returns from inside the loop body: the result is
some classified tuple and the remaining sleeps are consecutive backoffs. -/
theorem request_with_retry_spec (env : Nat → AttemptEvent) (B : ℚ) (R : Nat) :
    (rwrGo env B R 0 (R + 1)).1
        = some (classifyTerminal (env (request_with_retry env B R).2.length))
    ∧ (request_with_retry env B R).1
        = classifyTerminal (env (request_with_retry env B R).2.length)
    ∧ (request_with_retry env B R).2
        = (List.range (request_with_retry env B R).2.length).map (fun i => B * 2 ^ i)
    ∧ (∀ i, i < (request_with_retry env B R).2.length → isRetryable (env i) = true)
    ∧ (request_with_retry env B R).2.length ≤ R := by
  obtain ⟨h1, h2, h3, h4⟩ := rwrGo_spec env B R (R + 1) 0 (by omega) (by omega)
  have hsleeps : (request_with_retry env B R).2 = (rwrGo env B R 0 (R + 1)).2 := rfl
  refine ⟨?_, ?_, ?_, ?_, ?_⟩
  · rw [hsleeps]
    simpa using h1
  · show ((rwrGo env B R 0 (R + 1)).1.getD unknownFallback) = _
    rw [hsleeps]
    simp only [Nat.zero_add] at h1
    rw [h1]
    rfl
  · rw [hsleeps]
    rw [List.range_eq_range']
    simpa using h2
  · intro i hi
    rw [hsleeps] at hi
    exact h3 i (by omega) (by omega)
  · rw [hsleeps]
    omega
theorem process_one_row_blank (env : Nat → AttemptEvent) (B : ℚ) (R : Nat)
    (row : Row) (h : isBlankQuery row.question = true) :
    process_one_row env B R row = (none, none) := by
  simp [process_one_row, h]
theorem process_one_row_cases (env : Nat → AttemptEvent) (B : ℚ) (R : Nat)
    (row : Row) :
    (isBlankQuery row.question = true ∧ process_one_row env B R row = (none, none))
    ∨ (isBlankQuery row.question = false
        ∧ ∃ s, process_one_row env B R row = (some s, none))
    ∨ (isBlankQuery row.question = false
        ∧ ∃ e, process_one_row env B R row = (none, some e)) := by
  by_cases hb : isBlankQuery row.question
  · exact Or.inl ⟨hb, process_one_row_blank env B R row hb⟩
  · by_cases hok : (request_with_retry env B R).1.ok
    · refine Or.inr (Or.inl ⟨by simp [hb], ?_⟩)
      refine ⟨success_record row (request_with_retry env B R).1.body
        (request_with_retry env B R).1.latency, ?_⟩
      simp [process_one_row, hb, hok]
    · refine Or.inr (Or.inr ⟨by simp [hb], ?_⟩)
      refine ⟨error_record row
        (if pyTruthyNat (request_with_retry env B R).1.status then "http_status"
         else if (request_with_retry env B R).1.errMsg == some "timeout" then "timeout"
         else "exception")
        ((request_with_retry env B R).1.errMsg.getD "")
        (request_with_retry env B R).1.status, ?_⟩
      simp [process_one_row, hb, hok]
theorem flushClear_inv (st : SinkState σ ε) :
    (flushClear st).successWrites.flatten ++ (flushClear st).successBatch
        = st.successWrites.flatten ++ st.successBatch
    ∧ (flushClear st).errorWrites.flatten ++ (flushClear st).errorBatch
        = st.errorWrites.flatten ++ st.errorBatch
    ∧ (flushClear st).successBatch = [] ∧ (flushClear st).errorBatch = [] := by
  rcases st with ⟨sb, eb, sw, ew⟩
  by_cases h1 : sb.isEmpty <;> by_cases h2 : eb.isEmpty <;>
    simp_all [flushClear, List.isEmpty_iff, List.flatten_append]
theorem flushFinal_join (st : SinkState σ ε) :
    (flushFinal st).successWrites.flatten
        = st.successWrites.flatten ++ st.successBatch
    ∧ (flushFinal st).errorWrites.flatten
        = st.errorWrites.flatten ++ st.errorBatch := by
  rcases st with ⟨sb, eb, sw, ew⟩
  by_cases h1 : sb.isEmpty <;> by_cases h2 : eb.isEmpty <;>
    simp_all [flushFinal, List.isEmpty_iff, List.flatten_append]
theorem sinkStep_inv (flushEvery : Nat) (st : SinkState σ ε) (idx : Nat)
    (r : Option σ × Option ε) :
    (sinkStep flushEvery st idx r).successWrites.flatten
          ++ (sinkStep flushEvery st idx r).successBatch
        = st.successWrites.flatten ++ st.successBatch ++ r.1.toList
    ∧ (sinkStep flushEvery st idx r).errorWrites.flatten
          ++ (sinkStep flushEvery st idx r).errorBatch
        = st.errorWrites.flatten ++ st.errorBatch ++ r.2.toList := by
  by_cases h : idx % flushEvery == 0
  · have hc := flushClear_inv (appendOutcome st r)
    constructor
    · calc (sinkStep flushEvery st idx r).successWrites.flatten
            ++ (sinkStep flushEvery st idx r).successBatch
          = (flushClear (appendOutcome st r)).successWrites.flatten
            ++ (flushClear (appendOutcome st r)).successBatch := by
            simp [sinkStep, h]
        _ = (appendOutcome st r).successWrites.flatten
            ++ (appendOutcome st r).successBatch := hc.1
        _ = st.successWrites.flatten ++ st.successBatch ++ r.1.toList := by
            simp [appendOutcome]
    · calc (sinkStep flushEvery st idx r).errorWrites.flatten
            ++ (sinkStep flushEvery st idx r).errorBatch
          = (flushClear (appendOutcome st r)).errorWrites.flatten
            ++ (flushClear (appendOutcome st r)).errorBatch := by
            simp [sinkStep, h]
        _ = (appendOutcome st r).errorWrites.flatten
            ++ (appendOutcome st r).errorBatch := hc.2.1
        _ = st.errorWrites.flatten ++ st.errorBatch ++ r.2.toList := by
            simp [appendOutcome]
  · constructor <;> simp [sinkStep, h, appendOutcome]
/-- A step at a position that is not a multiple of FLUSH_EVERY writes
nothing to either file. -/
theorem sinkStep_no_flush (flushEvery : Nat) (st : SinkState σ ε) (idx : Nat)
    (r : Option σ × Option ε) (h : idx % flushEvery ≠ 0) :
    (sinkStep flushEvery st idx r).successWrites = st.successWrites
    ∧ (sinkStep flushEvery st idx r).errorWrites = st.errorWrites := by
  have h' : (idx % flushEvery == 0) = false := by simpa using h
  constructor <;> simp [sinkStep, h', appendOutcome]
/-- A step at a multiple of FLUSH_EVERY leaves both batches cleared. -/
theorem sinkStep_flush_clears (flushEvery : Nat) (st : SinkState σ ε) (idx : Nat)
    (r : Option σ × Option ε) (h : idx % flushEvery = 0) :
    (sinkStep flushEvery st idx r).successBatch = []
    ∧ (sinkStep flushEvery st idx r).errorBatch = [] := by
  have h' : (idx % flushEvery == 0) = true := by simpa using h
  have hc := flushClear_inv (appendOutcome st r)
  constructor <;> simp [sinkStep, h', hc.2.2.1, hc.2.2.2]
theorem sinkFold_inv (flushEvery : Nat) :
    ∀ (results : List (Option σ × Option ε)) (idx : Nat) (st : SinkState σ ε),
    (sinkFold flushEvery idx st results).successWrites.flatten
          ++ (sinkFold flushEvery idx st results).successBatch
        = st.successWrites.flatten ++ st.successBatch
          ++ results.filterMap (fun p => p.1)
    ∧ (sinkFold flushEvery idx st results).errorWrites.flatten
          ++ (sinkFold flushEvery idx st results).errorBatch
        = st.errorWrites.flatten ++ st.errorBatch
          ++ results.filterMap (fun p => p.2) := by
  intro results
  induction results with
  | nil => intro idx st; simp [sinkFold]
  | cons r rest ih =>
    intro idx st
    have hstep := sinkStep_inv flushEvery st idx r
    have hr := ih (idx + 1) (sinkStep flushEvery st idx r)
    constructor
    · rw [show sinkFold flushEvery idx st (r :: rest)
          = sinkFold flushEvery (idx + 1) (sinkStep flushEvery st idx r) rest from rfl]
      rw [hr.1, hstep.1]
      cases hr1 : r.1 <;> simp [List.filterMap_cons, hr1]
    · rw [show sinkFold flushEvery idx st (r :: rest)
          = sinkFold flushEvery (idx + 1) (sinkStep flushEvery st idx r) rest from rfl]
      rw [hr.2, hstep.2]
      cases hr2 : r.2 <;> simp [List.filterMap_cons, hr2]
/-- No outcome is lost or duplicated: the concatenation of all batches
written to the success file is exactly the success slots of the outcome
stream in order, and likewise for the error file. -/
theorem runSink_join (flushEvery : Nat) (results : List (Option σ × Option ε)) :
    (runSink flushEvery results).successWrites.flatten
        = results.filterMap (fun p => p.1)
    ∧ (runSink flushEvery results).errorWrites.flatten
        = results.filterMap (fun p => p.2) := by
  have hf := flushFinal_join (sinkFold flushEvery 1 (⟨[], [], [], []⟩ : SinkState σ ε) results)
  have hi := sinkFold_inv flushEvery results 1 (⟨[], [], [], []⟩ : SinkState σ ε)
  constructor
  · rw [show runSink flushEvery results
        = flushFinal (sinkFold flushEvery 1 ⟨[], [], [], []⟩ results) from rfl]
    rw [hf.1, hi.1]
    simp
  · rw [show runSink flushEvery results
        = flushFinal (sinkFold flushEvery 1 ⟨[], [], [], []⟩ results) from rfl]
    rw [hf.2, hi.2]
    simp

/-- C10: the fallback return after the attempt loop of request_with_retry
(the tuple carrying message "unknown") is unreachable for every retry
configuration with RETRIES >= 0: the loop itself always produces some
classified result on one of the attempts 0..R, and the function's value is
that in-loop result. -/
theorem c10_unknown_fallback_unreachable (env : Nat → AttemptEvent) (B : ℚ)
    (R : Nat) :
    (rwrGo env B R 0 (R + 1)).1.isSome = true
    ∧ (request_with_retry env B R).1
        = classifyTerminal (env (request_with_retry env B R).2.length) := by
  obtain ⟨h1, h2, _, _, _⟩ := request_with_retry_spec env B R
  exact ⟨by rw [h1]; rfl, h2⟩

/-- C2: the Request Executor makes at most maxRetries + 1 attempts (the
number of sleeps is at most R, and the terminal attempt index is the sleep
count); the sleeps are exactly backoffBase * 2 ^ i for consecutive i
starting at 0; every slept attempt was a retryable failure (successes never
retry); the returned tuple is the classification of the last attempt; with
R = 0 there is exactly one attempt and no sleep; and in the concrete
500/500/success scenario with maxRetries = 2 the result is the single
success of attempt 2 with its own latency, after sleeping backoffBase * 1
then backoffBase * 2. -/
theorem c2_retry_policy (env : Nat → AttemptEvent) (B : ℚ) (R : Nat) :
    (request_with_retry env B R).2.length ≤ R
    ∧ (request_with_retry env B R).2
        = (List.range (request_with_retry env B R).2.length).map
            (fun i => B * 2 ^ i)
    ∧ (∀ i, i < (request_with_retry env B R).2.length →
        isRetryable (env i) = true)
    ∧ (request_with_retry env B R).1
        = classifyTerminal (env (request_with_retry env B R).2.length)
    ∧ (request_with_retry env B 0).2 = []
    ∧ request_with_retry env500 B 2
        = ({ ok := true, body := some (ApiBody.jsonVal (Json.str "ok")),
             status := some 200, errMsg := none, latency := some 3 },
           [B * 1, B * 2]) := by
  obtain ⟨_, h2, h3, h4, h5⟩ := request_with_retry_spec env B R
  refine ⟨h5, h3, h4, h2, ?_, ?_⟩
  · have h0 := (request_with_retry_spec env B 0).2.2.2.2
    exact List.length_eq_zero.mp (by omega)
  · have hloop : rwrGo env500 B 2 0 3
        = (some (classifyTerminal (env500 2)), [B * 2 ^ 0, B * 2 ^ 1]) := by
      simp [rwrGo, env500, isRetryable, is2xx, resp500, respOk]
    have : request_with_retry env500 B 2
        = ((some (classifyTerminal (env500 2))).getD unknownFallback,
           [B * 2 ^ 0, B * 2 ^ 1]) := by
      rw [show request_with_retry env500 B 2
          = ((rwrGo env500 B 2 0 3).1.getD unknownFallback,
             (rwrGo env500 B 2 0 3).2) from rfl, hloop]
    rw [this]
    norm_num [env500, classifyTerminal, is2xx, respOk]

/-- C2 witness: the concrete 500/500/success scenario at the configured
backoff base. -/
theorem c2_retry_policy_witness :
    request_with_retry env500 BACKOFF_BASE 2
      = ({ ok := true, body := some (ApiBody.jsonVal (Json.str "ok")),
           status := some 200, errMsg := none, latency := some 3 },
         [BACKOFF_BASE * 1, BACKOFF_BASE * 2]) :=
  (c2_retry_policy env500 BACKOFF_BASE 2).2.2.2.2.2

/-- C6: a response with a 2xx status whose body does not parse as JSON still
yields a success tuple, with the raw response text substituted as the body,
and the resulting success record's results field is that raw text. -/
theorem c6_nonjson_success (env : Nat → AttemptEvent) (B : ℚ) (R : Nat)
    (row : Row) (resp : Resp) (lat : ℚ)
    (henv : env 0 = AttemptEvent.ok resp lat)
    (hparse : resp.jsonParse = none)
    (h2xx : is2xx resp.status_code = true)
    (hrow : isBlankQuery row.question = false) :
    (request_with_retry env B R).1
        = { ok := true, body := some (ApiBody.rawText resp.text),
            status := some resp.status_code, errMsg := none,
            latency := some lat }
    ∧ process_one_row env B R row
        = (some (success_record row (some (ApiBody.rawText resp.text))
            (some lat)), none) := by
  have hret : isRetryable (env 0) = false := by
    rw [henv]; simp [isRetryable, h2xx]
  have hloop : rwrGo env B R 0 (R + 1)
      = (some (classifyTerminal (env 0)), []) := by
    simp [rwrGo, hret]
  have hclass : classifyTerminal (env 0)
      = { ok := true, body := some (ApiBody.rawText resp.text),
          status := some resp.status_code, errMsg := none,
          latency := some lat } := by
    rw [henv]
    simp [classifyTerminal, h2xx, hparse]
  have hres : (request_with_retry env B R).1
      = { ok := true, body := some (ApiBody.rawText resp.text),
          status := some resp.status_code, errMsg := none,
          latency := some lat } := by
    rw [show (request_with_retry env B R).1
        = (rwrGo env B R 0 (R + 1)).1.getD unknownFallback from rfl, hloop]
    simp [hclass]
  refine ⟨hres, ?_⟩
  simp [process_one_row, hrow, hres]

/-- C6 witness: a concrete 200 response with body "not json". -/
theorem c6_nonjson_success_witness :
    process_one_row envRaw BACKOFF_BASE RETRIES sampleRow
      = (some (success_record sampleRow (some (ApiBody.rawText "not json"))
          (some 2)), none) :=
  (c6_nonjson_success envRaw BACKOFF_BASE RETRIES sampleRow respRaw 2
    rfl rfl (by decide) (by decide)).2

theorem exception_prefix_ne_timeout (m : String) :
    "exception: " ++ m ≠ "timeout" := by
  intro h
  have hlen := congrArg String.length h
  rw [String.length_append] at hlen
  have h1 : ("exception: " : String).length = 11 := by decide
  have h2 : ("timeout" : String).length = 7 := by decide
  omega

/-- C4 counterexample: a run whose every attempt ends in a connect timeout
(httpx.ConnectTimeout). The claim requires message "timeout" and an error
record of type "timeout" for connect timeouts as well, but the code's
`except httpx.ReadTimeout` arm does not catch ConnectTimeout: the generic
exception arm classifies it, so the message is "exception: <repr>" and the
written error record's type is "exception". -/
theorem c4_counterexample :
    envCT 0 = AttemptEvent.connectTimeout ctMsg
    ∧ envCT 1 = AttemptEvent.connectTimeout ctMsg
    ∧ envCT 2 = AttemptEvent.connectTimeout ctMsg
    ∧ isBlankQuery sampleRow.question = false
    ∧ (request_with_retry envCT BACKOFF_BASE RETRIES).1.status = none
    ∧ (request_with_retry envCT BACKOFF_BASE RETRIES).1.errMsg
        = some ("exception: " ++ ctMsg)
    ∧ (request_with_retry envCT BACKOFF_BASE RETRIES).1.errMsg ≠ some "timeout"
    ∧ (process_one_row envCT BACKOFF_BASE RETRIES sampleRow).2.map ErrorRec.errType
        = some "exception"
    ∧ ("exception" : String) ≠ "timeout" := by
  refine ⟨rfl, rfl, rfl, by decide, rfl, rfl, ?_, rfl, by decide⟩
  intro h
  have h3 : some ("exception: " ++ ctMsg) = some "timeout" := h
  exact exception_prefix_ne_timeout ctMsg (Option.some.inj h3)

/-- C4 amended: when every attempt ends in a read timeout
(httpx.ReadTimeout) the executor returns the terminal Failure with no
status code and message exactly "timeout", and the error record written for
the row has type "timeout"; a connect timeout instead falls to the generic
exception arm, yielding message "exception: <repr>" and an error record of
type "exception". -/
theorem c4_timeout_classification (env : Nat → AttemptEvent) (B : ℚ) (R : Nat)
    (row : Row)
    (henv : ∀ i, env i = AttemptEvent.readTimeout)
    (hrow : isBlankQuery row.question = false) :
    (request_with_retry env B R).1
        = { ok := false, body := none, status := none,
            errMsg := some "timeout", latency := none }
    ∧ process_one_row env B R row
        = (none, some (error_record row "timeout" "timeout" none))
    ∧ (∀ (m : String) (envc : Nat → AttemptEvent),
        (∀ i, envc i = AttemptEvent.connectTimeout m) →
        (request_with_retry envc B R).1
            = { ok := false, body := none, status := none,
                errMsg := some ("exception: " ++ m), latency := none }
        ∧ process_one_row envc B R row
            = (none, some (error_record row "exception"
                ("exception: " ++ m) none))) := by
  have hres : (request_with_retry env B R).1
      = { ok := false, body := none, status := none,
          errMsg := some "timeout", latency := none } := by
    have h2 := (request_with_retry_spec env B R).2.1
    rw [h2, henv]
    rfl
  refine ⟨hres, ?_, ?_⟩
  · simp [process_one_row, hrow, hres, pyTruthyNat, error_record]
  · intro m envc henvc
    have hresc : (request_with_retry envc B R).1
        = { ok := false, body := none, status := none,
            errMsg := some ("exception: " ++ m), latency := none } := by
      have h2 := (request_with_retry_spec envc B R).2.1
      rw [h2, henvc]
      rfl
    refine ⟨hresc, ?_⟩
    have hne : (some ("exception: " ++ m) == some "timeout") = false := by
      simp [exception_prefix_ne_timeout m]
    simp [process_one_row, hrow, hresc, pyTruthyNat, hne, error_record]

/-- C4 amended witness: the all-read-timeout run at the configured retry
policy. -/
theorem c4_timeout_classification_witness :
    process_one_row envRT BACKOFF_BASE RETRIES sampleRow
      = (none, some (error_record sampleRow "timeout" "timeout" none)) :=
  (c4_timeout_classification envRT BACKOFF_BASE RETRIES sampleRow
    (fun _ => rfl) (by decide)).2.1

theorem process_rows_count (B : ℚ) (R : Nat) (rows : List RowTask) :
    ((rows.map (fun rt => process_one_row rt.2 B R rt.1)).filterMap
        (fun p => p.1)).length
      + ((rows.map (fun rt => process_one_row rt.2 B R rt.1)).filterMap
        (fun p => p.2)).length
    = (rows.filter (fun rt => !isBlankQuery rt.1.question)).length := by
  induction rows with
  | nil => simp
  | cons rt rest ih =>
    rcases process_one_row_cases rt.2 B R rt.1 with
      ⟨hb, he⟩ | ⟨hb, s, he⟩ | ⟨hb, e, he⟩ <;>
      simp [List.filterMap_cons, List.filter_cons, he, hb,
        -List.filterMap_map] <;> omega

/-- C1: a blank-query row yields no record in either stream; a non-blank row
yields exactly one record in exactly one stream; consequently the number of
lines written to the success file plus the number written to the error file
equals the number of non-blank rows of the input. -/
theorem c1_exactly_one_outcome (B : ℚ) (R flushEvery : Nat)
    (rows : List RowTask) :
    (∀ (env : Nat → AttemptEvent) (row : Row),
        isBlankQuery row.question = true →
        process_one_row env B R row = (none, none))
    ∧ (∀ (env : Nat → AttemptEvent) (row : Row),
        isBlankQuery row.question = false →
        ((process_one_row env B R row).1.isSome
            ∧ (process_one_row env B R row).2 = none)
        ∨ ((process_one_row env B R row).1 = none
            ∧ (process_one_row env B R row).2.isSome))
    ∧ (process_file B R flushEvery rows).successWrites.flatten.length
        + (process_file B R flushEvery rows).errorWrites.flatten.length
      = (rows.filter (fun rt => !isBlankQuery rt.1.question)).length := by
  refine ⟨?_, ?_, ?_⟩
  · intro env row h
    exact process_one_row_blank env B R row h
  · intro env row h
    rcases process_one_row_cases env B R row with
      ⟨hb, _⟩ | ⟨_, s, he⟩ | ⟨_, e, he⟩
    · rw [h] at hb; exact absurd hb (by simp)
    · exact Or.inl (by simp [he])
    · exact Or.inr (by simp [he])
  · have hj := runSink_join flushEvery
      (rows.map (fun rt => process_one_row rt.2 B R rt.1))
    rw [show process_file B R flushEvery rows
        = runSink flushEvery (rows.map (fun rt => process_one_row rt.2 B R rt.1))
        from rfl]
    rw [hj.1, hj.2]
    exact process_rows_count B R rows

/-- C1 witness: one blank and one non-blank row give exactly one written
record in total. -/
theorem c1_exactly_one_outcome_witness :
    process_one_row okEnv BACKOFF_BASE RETRIES blankRow = (none, none)
    ∧ (process_file BACKOFF_BASE RETRIES FLUSH_EVERY c1Rows).successWrites.flatten.length
        + (process_file BACKOFF_BASE RETRIES FLUSH_EVERY c1Rows).errorWrites.flatten.length
      = 1 := by
  have h := c1_exactly_one_outcome BACKOFF_BASE RETRIES FLUSH_EVERY c1Rows
  refine ⟨h.1 okEnv blankRow (by decide), ?_⟩
  rw [h.2.2]
  decide

set_option maxRecDepth 1000000

set_option maxHeartbeats 4000000

theorem c3_sizes :
    (process_file BACKOFF_BASE RETRIES FLUSH_EVERY c3Rows).successWrites.map
        List.length = [200, 200, 50] := by
  decide

theorem c3_err_empty :
    (process_file BACKOFF_BASE RETRIES FLUSH_EVERY c3Rows).errorWrites = [] := by
  rfl

theorem c3_total :
    (process_file BACKOFF_BASE RETRIES FLUSH_EVERY c3Rows).successWrites.flatten.length
        = 450 := by
  decide

/-- C3: the Result Sink never loses or duplicates a record (the
concatenation of the batches appended to each file equals the corresponding
slots of the outcome stream, in order); it writes nothing at a position that
is not a multiple of FLUSH_EVERY (one running counter over successes and
failures together); at each multiple of FLUSH_EVERY both batches are left
cleared; and for FLUSH_EVERY = 200 with 450 non-blank all-succeeding rows
the success file receives exactly three appends of 200, 200 and 50 records
while the error file receives none. -/
theorem c3_flush_discipline :
    (∀ (σ ε : Type) (fe : Nat) (results : List (Option σ × Option ε)),
        (runSink fe results).successWrites.flatten
            = results.filterMap (fun p => p.1)
        ∧ (runSink fe results).errorWrites.flatten
            = results.filterMap (fun p => p.2))
    ∧ (∀ (σ ε : Type) (fe : Nat) (st : SinkState σ ε) (idx : Nat)
        (r : Option σ × Option ε),
        (idx % fe ≠ 0 →
          (sinkStep fe st idx r).successWrites = st.successWrites
          ∧ (sinkStep fe st idx r).errorWrites = st.errorWrites)
        ∧ (idx % fe = 0 →
          (sinkStep fe st idx r).successBatch = []
          ∧ (sinkStep fe st idx r).errorBatch = []))
    ∧ (process_file BACKOFF_BASE RETRIES FLUSH_EVERY c3Rows).successWrites.map
        List.length = [200, 200, 50]
    ∧ (process_file BACKOFF_BASE RETRIES FLUSH_EVERY c3Rows).errorWrites = []
    ∧ (process_file BACKOFF_BASE RETRIES FLUSH_EVERY c3Rows).successWrites.flatten.length
        = 450 :=
  ⟨fun _ _ fe results => runSink_join fe results,
   fun _ _ fe st idx r =>
     ⟨sinkStep_no_flush fe st idx r, sinkStep_flush_clears fe st idx r⟩,
   c3_sizes, c3_err_empty, c3_total⟩

/-- C3 witness: the no-loss equation at a concrete three-outcome stream with
flush threshold 2. -/
theorem c3_flush_discipline_witness :
    (runSink 2 [(some 1, (none : Option Nat)), (some 2, none),
      (some 3, none)]).successWrites.flatten = [1, 2, 3] := by
  have h := c3_flush_discipline.1 Nat Nat 2
    [(some 1, none), (some 2, none), (some 3, none)]
  rw [h.1]
  rfl

theorem find_completionEvents (tasks : List α) :
    ∀ (order : List Nat) (j : Nat) (a : α), j ∈ order → tasks[j]? = some a →
      (completionEvents tasks order).find? (fun e => e.1 == j) = some (j, a) := by
  intro order
  induction order with
  | nil => intro j a hj _; exact absurd hj (List.not_mem_nil j)
  | cons i rest ih =>
    intro j a hj hget
    cases hgi : tasks[i]? with
    | none =>
      have hstep : completionEvents tasks (i :: rest)
          = completionEvents tasks rest := by
        simp [completionEvents, List.filterMap_cons, hgi]
      rw [hstep]
      rcases List.mem_cons.mp hj with h | h
      · rw [h] at hget
        rw [hgi] at hget
        exact Option.noConfusion hget
      · exact ih j a h hget
    | some b =>
      have hstep : completionEvents tasks (i :: rest)
          = (i, b) :: completionEvents tasks rest := by
        simp [completionEvents, List.filterMap_cons, hgi]
      rw [hstep]
      by_cases hij : i = j
      · subst hij
        rw [hget] at hgi
        have hab : a = b := Option.some.inj hgi
        subst hab
        simp [List.find?]
      · have hfalse : (((i, b) : Nat × α).1 == j) = false := by simp [hij]
        simp only [List.find?_cons, hfalse, Bool.false_eq_true, if_false]
        rcases List.mem_cons.mp hj with h | h
        · exact absurd h.symm hij
        · exact ih j a h hget

theorem range_map_get (l : List α) :
    (List.range l.length).map (fun j => l[j]?) = l.map some := by
  induction l with
  | nil => simp
  | cons x xs ih =>
    rw [List.length_cons, List.range_succ_eq_map]
    simp only [List.map_cons, List.map_map, Function.comp_def,
      List.getElem?_cons_zero, List.getElem?_cons_succ]
    rw [ih]

/-- C5: in input-order mode the outcomes are collected in the exact order
the tasks were created, regardless of the completion schedule: whenever the
schedule completes every task, the gathered sequence is the task results in
creation order; in particular for three tasks whose middle task finishes
last, the collected order is still first, middle, third. -/
theorem c5_input_order (α : Type) (tasks : List α) (order : List Nat)
    (h : ∀ j, j < tasks.length → j ∈ order) :
    gather tasks order = tasks.map some
    ∧ (∀ r0 r1 r2 : α, gather [r0, r1, r2] [0, 2, 1]
        = [some r0, some r1, some r2]) := by
  constructor
  · rw [show gather tasks order
        = (List.range tasks.length).map
            (fun j => ((completionEvents tasks order).find?
              (fun e => e.1 == j)).map (fun e => e.2)) from rfl]
    rw [show tasks.map some
        = (List.range tasks.length).map (fun j => tasks[j]?) from
      (range_map_get tasks).symm]
    apply List.map_congr_left
    intro j hj
    have hjlt : j < tasks.length := List.mem_range.mp hj
    have h2 := List.getElem?_eq_getElem hjlt
    rw [find_completionEvents tasks order j _ (h j hjlt) h2, h2]
    rfl
  · intro r0 r1 r2
    rfl

/-- C5 witness: three numeric tasks with the middle one completing last. -/
theorem c5_input_order_witness :
    gather [10, 20, 30] [0, 2, 1] = [some 10, some 20, some 30] := by
  have h := c5_input_order Nat [10, 20, 30] [0, 2, 1] (by decide)
  simpa using h.1

/-- C7: when the input_files, output_files and err_files lists do not all
have equal length, pair_io raises its ValueError before the HTTP client is
created, the case run ends with that configuration error, and no row is
dispatched to the Request Executor. -/
theorem c7_config_mismatch (B : ℚ) (R fe : Nat) (conf : CaseConf)
    (inputs : String → List RowTask)
    (h : ¬ (conf.input_files.length = conf.output_files.length
            ∧ conf.output_files.length = conf.err_files.length)) :
    (∃ msg, process_case B R fe conf inputs = Except.error msg)
    ∧ process_case_requests conf inputs = 0 := by
  have hcond : (conf.input_files.length == conf.output_files.length
      && conf.output_files.length == conf.err_files.length) = false := by
    rcases Decidable.not_and_iff_or_not.mp h with h1 | h1 <;>
      simp [h1, Nat.beq_eq_true_eq]
  have hpair : pair_io conf = Except.error
      ("input/output/err 파일 개수가 맞지 않습니다: "
        ++ toString conf.input_files.length ++ " != "
        ++ toString conf.output_files.length ++ " != "
        ++ toString conf.err_files.length) := by
    simp [pair_io, hcond]
  constructor
  · refine ⟨"input/output/err 파일 개수가 맞지 않습니다: "
        ++ toString conf.input_files.length ++ " != "
        ++ toString conf.output_files.length ++ " != "
        ++ toString conf.err_files.length, ?_⟩
    simp [process_case, hpair]
  · simp [process_case_requests, hpair]

/-- C7 witness: one input path, zero output paths, one error path. -/
theorem c7_config_mismatch_witness :
    (∃ msg, process_case 1 2 200 conf7 inputs0 = Except.error msg)
    ∧ process_case_requests conf7 inputs0 = 0 :=
  c7_config_mismatch 1 2 200 conf7 inputs0 (by decide)

theorem dictGet_map_set_self (k : String) (v : Json) :
    ∀ d : List (String × Json), d.any (fun kv => kv.1 == k) = true →
      dictGet (d.map (fun kv => if kv.1 == k then (k, v) else kv)) k = some v := by
  intro d
  induction d with
  | nil => intro h; simp at h
  | cons kv rest ih =>
    intro hany
    by_cases hk : (kv.1 == k) = true
    · simp [dictGet, hk]
    · have hk' : (kv.1 == k) = false := by simpa using hk
      have hrest : rest.any (fun kv => kv.1 == k) = true := by
        simp only [List.any_cons, hk', Bool.false_or] at hany
        exact hany
      simp only [List.map_cons, hk', if_false, dictGet, Bool.false_eq_true]
      exact ih hrest

theorem dictGet_map_set_ne (k : String) (v : Json) (k0 : String) (h : k0 ≠ k) :
    ∀ d : List (String × Json),
      dictGet (d.map (fun kv => if kv.1 == k then (k, v) else kv)) k0
        = dictGet d k0 := by
  intro d
  induction d with
  | nil => rfl
  | cons kv rest ih =>
    by_cases hk : (kv.1 == k) = true
    · have hkv : kv.1 = k := by simpa using hk
      have hne : (k == k0) = false := by
        simpa using fun hcon => h hcon.symm
      have hne2 : (kv.1 == k0) = false := by
        rw [hkv]; exact hne
      simp only [List.map_cons, hk, if_true, dictGet, hne, hne2,
        Bool.false_eq_true]
      exact ih
    · have hk' : (kv.1 == k) = false := by simpa using hk
      by_cases hk0 : (kv.1 == k0) = true
      · simp [dictGet, hk', hk0]
      · have hk0' : (kv.1 == k0) = false := by simpa using hk0
        simp only [List.map_cons, hk', if_false, dictGet, hk0',
          Bool.false_eq_true]
        exact ih

theorem dictGet_append_single_self (k : String) (v : Json) :
    ∀ d : List (String × Json), d.any (fun kv => kv.1 == k) = false →
      dictGet (d ++ [(k, v)]) k = some v := by
  intro d
  induction d with
  | nil => simp [dictGet]
  | cons kv rest ih =>
    intro hany
    have hk : (kv.1 == k) = false := by
      by_contra hcon
      have hcon2 : (kv.1 == k) = true := by simpa using hcon
      simp only [List.any_cons, hcon2, Bool.true_or] at hany
      exact absurd hany (by decide)
    have hrest : rest.any (fun kv => kv.1 == k) = false := by
      simp only [List.any_cons, hk, Bool.false_or] at hany
      exact hany
    simp only [List.cons_append, dictGet, hk, Bool.false_eq_true]
    exact ih hrest

theorem dictGet_append_single_ne (k : String) (v : Json) (k0 : String)
    (h : k0 ≠ k) :
    ∀ d : List (String × Json), dictGet (d ++ [(k, v)]) k0 = dictGet d k0 := by
  intro d
  induction d with
  | nil =>
    have hne : (k == k0) = false := by
      simpa using fun hcon => h hcon.symm
    simp [dictGet, hne]
  | cons kv rest ih =>
    by_cases hk0 : (kv.1 == k0) = true
    · simp [dictGet, hk0]
    · have hk0' : (kv.1 == k0) = false := by simpa using hk0
      simp only [List.cons_append, dictGet, hk0', Bool.false_eq_true]
      exact ih

/-- C8: build_body leaves the shared base body unchanged (the update is
performed on the dict(base_body) copy, and the embedding of the call returns
a value while base_body keeps denoting the same mapping) and the returned
body maps "queries" to the singleton list holding the question string while
every other key keeps exactly its base value. -/
theorem c8_build_body_pure (base_body : List (String × Json)) (question : String) :
    dictGet (build_body base_body question) "queries"
        = some (Json.arr [Json.str question])
    ∧ (∀ k, k ≠ "queries" →
        dictGet (build_body base_body question) k = dictGet base_body k) := by
  constructor
  · by_cases hany : base_body.any (fun kv => kv.1 == "queries") = true
    · rw [show build_body base_body question
          = base_body.map (fun kv => if kv.1 == "queries"
              then ("queries", Json.arr [Json.str question]) else kv)
          from by simp [build_body, dictSet, hany]]
      exact dictGet_map_set_self "queries" (Json.arr [Json.str question])
        base_body hany
    · have hany' : base_body.any (fun kv => kv.1 == "queries") = false :=
        Bool.eq_false_iff.mpr hany
      rw [show build_body base_body question
          = base_body ++ [("queries", Json.arr [Json.str question])]
          from by simp [build_body, dictSet, hany']]
      exact dictGet_append_single_self "queries" (Json.arr [Json.str question])
        base_body hany'
  · intro k hk
    by_cases hany : base_body.any (fun kv => kv.1 == "queries") = true
    · rw [show build_body base_body question
          = base_body.map (fun kv => if kv.1 == "queries"
              then ("queries", Json.arr [Json.str question]) else kv)
          from by simp [build_body, dictSet, hany]]
      exact dictGet_map_set_ne "queries" (Json.arr [Json.str question]) k hk
        base_body
    · have hany' : base_body.any (fun kv => kv.1 == "queries") = false :=
        Bool.eq_false_iff.mpr hany
      rw [show build_body base_body question
          = base_body ++ [("queries", Json.arr [Json.str question])]
          from by simp [build_body, dictSet, hany']]
      exact dictGet_append_single_ne "queries" (Json.arr [Json.str question]) k
        hk base_body

/-- C8 witness: a template body resembling the configured cases. -/
theorem c8_build_body_pure_witness :
    dictGet (build_body c8Base "hello") "queries"
        = some (Json.arr [Json.str "hello"])
    ∧ dictGet (build_body c8Base "hello") "collection_name"
        = dictGet c8Base "collection_name" := by
  have h := c8_build_body_pure c8Base "hello"
  exact ⟨h.1, h.2 "collection_name" (by decide)⟩

/-- C9 counterexample: the claim asserts that flushing succeeds for every
output path, including a bare filename, but os.path.dirname of a bare
filename is "" and os.makedirs("", exist_ok=True) raises FileNotFoundError,
so to_jsonl fails before writing anything. -/
theorem c9_counterexample :
    dirname "results.jsonl" = ""
    ∧ to_jsonl (fun (s : String) => s) emptyFsStr "results.jsonl" ["line1"]
        = Except.error PyErr.fileNotFound := by
  constructor
  · decide
  · rfl

/-- C9 amended: for every output path whose directory component is
non-empty, to_jsonl succeeds and appends exactly one encoded line per
record in append mode, preserving every prior line of that file and
touching no other file; for a path with no directory component (a bare
filename, empty dirname) the directory-creation step raises
FileNotFoundError instead. -/
theorem c9_to_jsonl_append (α β : Type) (enc : α → β) (fs : FileSys β)
    (path : String) (records : List α) (hdir : dirname path ≠ "") :
    to_jsonl enc fs path records
        = Except.ok (appendLines fs path (records.map enc))
    ∧ appendLines fs path (records.map enc) path = fs path ++ records.map enc
    ∧ (records.map enc).length = records.length
    ∧ (∀ p, p ≠ path → appendLines fs path (records.map enc) p = fs p)
    ∧ (∀ (fs2 : FileSys β) (path2 : String) (records2 : List α),
        dirname path2 = "" →
        to_jsonl enc fs2 path2 records2 = Except.error PyErr.fileNotFound) := by
  have hdir' : (dirname path == "") = false := by simpa using hdir
  refine ⟨?_, ?_, ?_, ?_, ?_⟩
  · simp [to_jsonl, ensure_dir_for_file, makedirsExistOk, hdir']
  · simp [appendLines]
  · simp
  · intro p hp
    have hp' : (p == path) = false := by simpa using hp
    simp [appendLines, hp']
  · intro fs2 path2 records2 h2
    simp [to_jsonl, ensure_dir_for_file, makedirsExistOk, h2]

/-- C9 amended witness: appending one record to a path under a directory. -/
theorem c9_to_jsonl_append_witness :
    to_jsonl (fun (n : Nat) => n) emptyFsNat "outputs/results.jsonl" [7]
      = Except.ok (appendLines emptyFsNat "outputs/results.jsonl" [7]) := by
  have h := c9_to_jsonl_append Nat Nat (fun n => n) emptyFsNat
    "outputs/results.jsonl" [7] (by decide)
  simpa using h.1

end BatchRunner
